import Mathlib

/-!
Verification development for the SMS phone-number verification service
(`src/app.js` plus the `SMSVerify` store it instantiates).

The HTTP layer (`app.js`) is embedded directly from the source.  The
`SMSVerify` store itself is not among the provided source files, so its
three operations are modelled from the specification (§3–§4.1 of the
spec); each such definition carries a `Modelled from the spec:` comment.

Timestamps are naturals (milliseconds since epoch); the random code
generated by `request` is passed in as an explicit argument, making the
nondeterminism an input of the model.
-/

namespace SMSApp

/-- Modelled from the spec: a `VerificationRecord` (spec §3) holds the
short numeric code and the absolute expiration timestamp for one phone
number.  The phone number itself is the key of the store map. -/
structure VerificationRecord where
  code : String
  expiresAt : Nat
  deriving Repr, DecidableEq

/-- Modelled from the spec: the `VerificationStore` (spec §2) maps
phone number → pending `VerificationRecord`; embedded as an association
list. -/
abbrev VerificationStore := List (String × VerificationRecord)

/-- Look up the pending record for a phone number. -/
def lookupRecord : VerificationStore → String → Option VerificationRecord
  | [], _ => none
  | (p, r) :: t, phone => if p = phone then some r else lookupRecord t phone

/-- Remove every entry for a phone number. -/
def removeRecord : VerificationStore → String → VerificationStore
  | [], _ => []
  | (p, r) :: t, phone =>
      if p = phone then removeRecord t phone else (p, r) :: removeRecord t phone

/-- Modelled from the spec: `request(phoneNumber)` (spec §4.1, SMSVerify.js
missing from the sources).  Generates a code (here: the `code` argument),
computes `expiresAt = now + TTL`, inserts/overwrites the record for the
phone number, and returns the expiration timestamp.  The outbound SMS
dispatch is fire-and-forget and does not affect the store. -/
def request (s : VerificationStore) (phone code : String) (now ttl : Nat) :
    VerificationStore × Nat :=
  ((phone, ⟨code, now + ttl⟩) :: removeRecord s phone, now + ttl)

/-- Modelled from the spec: `verify(phoneNumber, submittedMessage)`
(spec §4.1, SMSVerify.js missing from the sources).  Absent record →
false; at or past `expiresAt` → treated as not found, false; otherwise
true iff the stored code equals the submitted value or the submitted
value contains the stored code as a substring.  The record is not
mutated or deleted. -/
def verify (s : VerificationStore) (phone msg : String) (now : Nat) : Bool :=
  match lookupRecord s phone with
  | none => false
  | some r =>
      if r.expiresAt ≤ now then false
      else msg = r.code ∨ r.code.data <:+: msg.data

/-- Modelled from the spec: `reset(phoneNumber)` (spec §4.1, SMSVerify.js
missing from the sources).  Deletes the record if present and returns
true exactly when one existed. -/
def reset (s : VerificationStore) (phone : String) : VerificationStore × Bool :=
  match lookupRecord s phone with
  | none => (s, false)
  | some _ => (removeRecord s phone, true)

/-- Well-formedness: at most one record per phone number (spec §3
invariant). -/
def StoreWF (s : VerificationStore) : Prop :=
  (s.map Prod.fst).Nodup

theorem lookupRecord_removeRecord_self (s : VerificationStore) (phone : String) :
    lookupRecord (removeRecord s phone) phone = none := by
  induction s with
  | nil => rfl
  | cons hd t ih =>
      obtain ⟨p, r⟩ := hd
      by_cases h : p = phone
      · simp [removeRecord, h, ih]
      · simp [removeRecord, lookupRecord, h, ih]

theorem lookupRecord_removeRecord_ne (s : VerificationStore) (phone q : String)
    (h : q ≠ phone) : lookupRecord (removeRecord s phone) q = lookupRecord s q := by
  induction s with
  | nil => rfl
  | cons hd t ih =>
      obtain ⟨p, r⟩ := hd
      by_cases hp : p = phone
      · subst hp
        simp [removeRecord, lookupRecord, Ne.symm h, ih]
      · by_cases hq : p = q <;> simp [removeRecord, lookupRecord, hp, hq, h, ih]

theorem mem_map_fst_removeRecord (s : VerificationStore) (phone q : String)
    (h : q ∈ ((removeRecord s phone).map Prod.fst)) : q ∈ s.map Prod.fst := by
  induction s with
  | nil => simp [removeRecord] at h
  | cons hd t ih =>
      obtain ⟨p, r⟩ := hd
      by_cases hp : p = phone
      · simp only [removeRecord, hp, if_pos rfl] at h
        exact List.mem_cons_of_mem _ (ih h)
      · simp only [removeRecord, if_neg hp, List.map_cons, List.mem_cons] at h ⊢
        rcases h with h | h
        · exact Or.inl h
        · exact Or.inr (ih h)

theorem storeWF_removeRecord (s : VerificationStore) (phone : String)
    (h : StoreWF s) : StoreWF (removeRecord s phone) := by
  induction s with
  | nil => exact h
  | cons hd t ih =>
      obtain ⟨p, r⟩ := hd
      simp only [StoreWF, List.map_cons, List.nodup_cons] at h
      by_cases hp : p = phone
      · simpa [removeRecord, hp] using ih h.2
      · simp only [StoreWF, removeRecord, if_neg hp, List.map_cons, List.nodup_cons]
        exact ⟨fun hm => h.1 (mem_map_fst_removeRecord t phone p hm), ih h.2⟩

theorem not_mem_map_fst_removeRecord_self (s : VerificationStore) (phone : String) :
    phone ∉ ((removeRecord s phone).map Prod.fst) := by
  induction s with
  | nil => simp [removeRecord]
  | cons hd t ih =>
      obtain ⟨p, r⟩ := hd
      by_cases hp : p = phone
      · simpa [removeRecord, hp] using ih
      · simp only [removeRecord, if_neg hp, List.map_cons, List.mem_cons]
        exact fun h => h.elim (fun h => hp h.symm) ih

theorem storeWF_request (s : VerificationStore) (phone code : String)
    (now ttl : Nat) (h : StoreWF s) : StoreWF (request s phone code now ttl).1 := by
  simp only [request, StoreWF, List.map_cons, List.nodup_cons]
  exact ⟨not_mem_map_fst_removeRecord_self s phone, storeWF_removeRecord s phone h⟩

theorem lookupRecord_request_self (s : VerificationStore) (phone code : String)
    (now ttl : Nat) :
    lookupRecord (request s phone code now ttl).1 phone = some ⟨code, now + ttl⟩ := by
  simp [request, lookupRecord]

/-! ## HTTP layer, embedded from `src/app.js`

Environment variables are `Option String` (`none` = unset, matching the
JavaScript `== null` checks).  `process.exit()` is called with no
argument in every startup check, which in Node terminates the process
with exit code 0; the model records that code explicitly. -/

/-- The relevant environment variables read by `app.js`. -/
structure Env where
  TWILIO_ACCOUNT_SID : Option String
  TWILIO_API_KEY : Option String
  TWILIO_API_SECRET : Option String
  SENDING_PHONE_NUMBER : Option String
  APP_HASH : Option String
  CLIENT_SECRET : Option String
  deriving Repr, DecidableEq

/-- Remediation message printed when the Twilio credentials are missing
(`app.js` lines 24–27). -/
def twilioCredsMsg : String :=
  "Please copy the .env.example file to .env, and then add your Twilio API Key, API Secret, and Account SID to the .env file. Find them on https://www.twilio.com/console"

/-- Remediation message for a missing sending phone number (`app.js`
lines 32–33). -/
def sendingNumberMsg : String :=
  "Please provide a valid phone number, such as +15125551212, in the .env file"

/-- Remediation message for a missing Android app hash (`app.js` lines
38–39). -/
def appHashMsg : String :=
  "Please provide a valid Android app hash, in the .env file"

/-- Remediation message for a missing client secret (`app.js` lines
44–47). -/
def clientSecretMsg : String :=
  "Please provide a secret string to share, between the app and the server in the .env file"

/-- Outcome of the startup configuration checks: either the process
exited after printing a message (with the recorded exit code), or the
server starts and serves requests with the configured client secret. -/
inductive StartupOutcome where
  | exited (message : String) (exitCode : Nat)
  | running (configuredClientSecret : String)
  deriving Repr, DecidableEq

/-- Exit code of an `exited` outcome, `none` when the server started. -/
def StartupOutcome.exitCode? : StartupOutcome → Option Nat
  | .exited _ c => some c
  | .running _ => none

/-- Whether the outcome is a running server. -/
def StartupOutcome.serving : StartupOutcome → Bool
  | .exited _ _ => false
  | .running _ => true

/-- Startup configuration checks of `app.js` lines 21–50, in source
order.  Each failing check calls `console.log(...)` then
`process.exit()`; bare `process.exit()` exits with code 0. -/
def startup (env : Env) : StartupOutcome :=
  if env.TWILIO_API_KEY = none ∨ env.TWILIO_API_SECRET = none ∨
      env.TWILIO_ACCOUNT_SID = none then
    .exited twilioCredsMsg 0
  else if env.SENDING_PHONE_NUMBER = none then
    .exited sendingNumberMsg 0
  else if env.APP_HASH = none then
    .exited appHashMsg 0
  else if env.CLIENT_SECRET = none then
    .exited clientSecretMsg 0
  else
    .running (env.CLIENT_SECRET.getD "")

/-- The JSON body served by `GET /config` (`app.js` lines 163–172).
`TWILIO_API_SECRET` is the boolean `process.env.TWILIO_API_SECRET != ''`;
every other field is the raw environment value. -/
structure ConfigResponse where
  TWILIO_ACCOUNT_SID : Option String
  TWILIO_API_KEY : Option String
  TWILIO_API_SECRET : Bool
  SENDING_PHONE_NUMBER : Option String
  CLIENT_SECRET : Option String
  APP_HASH : Option String
  deriving Repr, DecidableEq

/-- The `GET /config` handler (`app.js` lines 163–172). -/
def configHandler (env : Env) : ConfigResponse :=
  { TWILIO_ACCOUNT_SID := env.TWILIO_ACCOUNT_SID
    TWILIO_API_KEY := env.TWILIO_API_KEY
    TWILIO_API_SECRET := decide (env.TWILIO_API_SECRET ≠ some "")
    SENDING_PHONE_NUMBER := env.SENDING_PHONE_NUMBER
    CLIENT_SECRET := env.CLIENT_SECRET
    APP_HASH := env.APP_HASH }

/-- JSON body of a POST request; absent fields are `none`, matching the
`== null` checks in the handlers. -/
structure RequestBody where
  client_secret : Option String
  phone : Option String
  sms_message : Option String
  deriving Repr, DecidableEq

/-- Body of an HTTP response sent by the handlers: plain text (the error
path), or one of the three JSON shapes. -/
inductive ResponseBody where
  | text (msg : String)
  | successTime (time : Nat)
  | successPhone (phone : String)
  | failureMsg (msg : String)
  deriving Repr, DecidableEq

/-- An HTTP response: status code plus body.  `response.send(500, txt)`
yields status 500; `response.send(obj)` yields the default status 200. -/
structure HttpResponse where
  status : Nat
  body : ResponseBody
  deriving Repr, DecidableEq

/-- An error response in the sense of the spec: an HTTP error status
(≥ 400) carrying a non-empty descriptive text message. -/
def errorResponse (r : HttpResponse) : Bool :=
  decide (400 ≤ r.status) &&
    match r.body with
    | .text m => !m.isEmpty
    | _ => false

def requiredRequestMsg : String := "Both client_secret and phone are required."

def secretMismatchMsg : String := "The client_secret parameter does not match."

def requiredVerifyMsg : String :=
  "The client_secret, phone, and sms_message parameters are required"

def requiredResetMsg : String := "The client_secret and phone parameters are required"

def verifyFailMsg : String := "Unable to validate code for this phone number"

def resetFailMsg : String := "Unable to reset code for this phone number"

/-- The `POST /api/request` handler (`app.js` lines 69–89).  Returns the
store after the call together with the response.  The freshly generated
code and the current time are explicit arguments; the `time` field of
the success response is `smsVerify.getExpiration()`, the expiration
most recently computed by `request` (spec §4.1). -/
def handleApiRequest (configuredClientSecret : String) (s : VerificationStore)
    (b : RequestBody) (code : String) (now ttl : Nat) :
    VerificationStore × HttpResponse :=
  if b.client_secret = none ∨ b.phone = none then
    (s, ⟨500, .text requiredRequestMsg⟩)
  else if b.client_secret ≠ some configuredClientSecret then
    (s, ⟨500, .text secretMismatchMsg⟩)
  else
    let res := request s (b.phone.getD "") code now ttl
    (res.1, ⟨200, .successTime res.2⟩)

/-- The `POST /api/verify` handler (`app.js` lines 94–124). -/
def handleApiVerify (configuredClientSecret : String) (s : VerificationStore)
    (b : RequestBody) (now : Nat) : VerificationStore × HttpResponse :=
  if b.client_secret = none ∨ b.phone = none ∨ b.sms_message = none then
    (s, ⟨500, .text requiredVerifyMsg⟩)
  else if b.client_secret ≠ some configuredClientSecret then
    (s, ⟨500, .text secretMismatchMsg⟩)
  else if verify s (b.phone.getD "") (b.sms_message.getD "") now then
    (s, ⟨200, .successPhone (b.phone.getD "")⟩)
  else
    (s, ⟨200, .failureMsg verifyFailMsg⟩)

/-- The `POST /api/reset` handler (`app.js` lines 129–157). -/
def handleApiReset (configuredClientSecret : String) (s : VerificationStore)
    (b : RequestBody) : VerificationStore × HttpResponse :=
  if b.client_secret = none ∨ b.phone = none then
    (s, ⟨500, .text requiredResetMsg⟩)
  else if b.client_secret ≠ some configuredClientSecret then
    (s, ⟨500, .text secretMismatchMsg⟩)
  else
    let res := reset s (b.phone.getD "")
    if res.2 then
      (res.1, ⟨200, .successPhone (b.phone.getD "")⟩)
    else
      (res.1, ⟨200, .failureMsg resetFailMsg⟩)

/-! ## Helper lemmas -/

theorem verify_true_iff (s : VerificationStore) (phone msg : String) (now : Nat)
    (r : VerificationRecord) (hr : lookupRecord s phone = some r)
    (hlive : now < r.expiresAt) :
    verify s phone msg now = true ↔ (msg = r.code ∨ r.code.data <:+: msg.data) := by
  simp [verify, hr, Nat.not_le.mpr hlive]

theorem verify_false_of_none (s : VerificationStore) (phone msg : String)
    (now : Nat) (h : lookupRecord s phone = none) :
    verify s phone msg now = false := by
  simp [verify, h]

theorem verify_false_of_expired (s : VerificationStore) (phone msg : String)
    (now : Nat) (r : VerificationRecord) (hr : lookupRecord s phone = some r)
    (hexp : r.expiresAt ≤ now) : verify s phone msg now = false := by
  simp [verify, hr, hexp]

theorem lookupRecord_reset_self (s : VerificationStore) (phone : String) :
    lookupRecord (reset s phone).1 phone = none := by
  cases h : lookupRecord s phone with
  | none => simp [reset, h]
  | some r => simp [reset, h, lookupRecord_removeRecord_self]

/-- Store with one pending record, used to instantiate witnesses. -/
def demoStore : VerificationStore := [("+15551234567", ⟨"4821", 300⟩)]

/-- A fully populated environment, used to instantiate witnesses. -/
def demoEnv : Env :=
  { TWILIO_ACCOUNT_SID := some "ACxxxxxxxx"
    TWILIO_API_KEY := some "SKxxxxxxxx"
    TWILIO_API_SECRET := some "twilio-api-secret"
    SENDING_PHONE_NUMBER := some "+15125551212"
    APP_HASH := some "appHash1234"
    CLIENT_SECRET := some "sms-shared-secret" }

/-- `demoEnv` with the client secret unset. -/
def envMissingSecret : Env := { demoEnv with CLIENT_SECRET := none }

/-! ## Claims -/

/-- C1: for every phone number with a pending record, once the current
time is at or past the record's `expiresAt`, `verify` returns false for
every submitted message, even one equal to or containing the stored
code. -/
theorem C1_expired_never_verifies (s : VerificationStore) (phone msg : String)
    (now : Nat) (r : VerificationRecord) (hr : lookupRecord s phone = some r)
    (hexp : r.expiresAt ≤ now) : verify s phone msg now = false :=
  verify_false_of_expired s phone msg now r hr hexp

theorem C1_expired_never_verifies_witness :
    verify demoStore "+15551234567" "4821" 300 = false :=
  C1_expired_never_verifies demoStore "+15551234567" "4821" 300 ⟨"4821", 300⟩
    (by decide) (by decide)

/-- C2: for a pending, unexpired record with stored code `r.code`,
`verify` returns true iff the submitted message equals the code or
contains it as a substring; any other message is rejected. -/
theorem C2_verify_code_match_iff (s : VerificationStore) (phone msg : String)
    (now : Nat) (r : VerificationRecord) (hr : lookupRecord s phone = some r)
    (hlive : now < r.expiresAt) :
    verify s phone msg now = true ↔ (msg = r.code ∨ r.code.data <:+: msg.data) :=
  verify_true_iff s phone msg now r hr hlive

theorem C2_verify_code_match_iff_witness :
    verify demoStore "+15551234567" "4821" 10 = true ∧
    verify demoStore "+15551234567" "text 4821 text" 10 = true ∧
    verify demoStore "+15551234567" "9999" 10 = false := by
  refine ⟨?_, ?_, ?_⟩
  · exact (C2_verify_code_match_iff demoStore "+15551234567" "4821" 10
      ⟨"4821", 300⟩ (by decide) (by decide)).mpr (Or.inl rfl)
  · exact (C2_verify_code_match_iff demoStore "+15551234567" "text 4821 text" 10
      ⟨"4821", 300⟩ (by decide) (by decide)).mpr (Or.inr (by decide))
  · have h := C2_verify_code_match_iff demoStore "+15551234567" "9999" 10
      ⟨"4821", 300⟩ (by decide) (by decide)
    cases hv : verify demoStore "+15551234567" "9999" 10 with
    | false => rfl
    | true => exact absurd (h.mp hv) (by decide)

/-- C4: for a phone number with no record (e.g. one never requested),
`verify` returns false for every message and `reset` returns false. -/
theorem C4_unknown_phone (s : VerificationStore) (phone : String) (now : Nat)
    (h : lookupRecord s phone = none) :
    (∀ msg, verify s phone msg now = false) ∧ (reset s phone).2 = false :=
  ⟨fun msg => verify_false_of_none s phone msg now h, by simp [reset, h]⟩

theorem C4_unknown_phone_witness :
    verify [] "+19998887777" "4821" 5 = false ∧
    (reset ([] : VerificationStore) "+19998887777").2 = false :=
  ⟨(C4_unknown_phone [] "+19998887777" 5 rfl).1 "4821",
    (C4_unknown_phone [] "+19998887777" 5 rfl).2⟩

/-- C5: the store keeps at most one record per phone number, `request`
inserts or overwrites the record, and after a second `request` for the
same number only the second code verifies: a message is accepted iff it
equals or contains the second code, so a message matching only the
first code is rejected. -/
theorem C5_request_overwrites (s : VerificationStore) (phone c1 c2 : String)
    (now1 ttl1 now2 ttl2 : Nat) (hWF : StoreWF s) :
    StoreWF (request (request s phone c1 now1 ttl1).1 phone c2 now2 ttl2).1 ∧
    lookupRecord (request (request s phone c1 now1 ttl1).1 phone c2 now2 ttl2).1
      phone = some ⟨c2, now2 + ttl2⟩ ∧
    ∀ msg now, now < now2 + ttl2 →
      (verify (request (request s phone c1 now1 ttl1).1 phone c2 now2 ttl2).1
          phone msg now = true ↔ (msg = c2 ∨ c2.data <:+: msg.data)) := by
  refine ⟨storeWF_request _ _ _ _ _ (storeWF_request _ _ _ _ _ hWF),
    lookupRecord_request_self _ _ _ _ _, fun msg now hnow => ?_⟩
  exact verify_true_iff _ _ _ _ ⟨c2, now2 + ttl2⟩
    (lookupRecord_request_self _ _ _ _ _) hnow

theorem C5_request_overwrites_witness :
    verify (request (request [] "+15551234567" "1111" 0 300).1 "+15551234567"
      "2222" 10 300).1 "+15551234567" "2222" 20 = true ∧
    verify (request (request [] "+15551234567" "1111" 0 300).1 "+15551234567"
      "2222" 10 300).1 "+15551234567" "1111" 20 = false := by
  have h := C5_request_overwrites [] "+15551234567" "1111" "2222" 0 300 10 300
    (by simp [StoreWF])
  refine ⟨(h.2.2 "2222" 20 (by decide)).mpr (Or.inl rfl), ?_⟩
  have h2 := h.2.2 "1111" 20 (by decide)
  cases hv : verify (request (request [] "+15551234567" "1111" 0 300).1
      "+15551234567" "2222" 10 300).1 "+15551234567" "1111" 20 with
  | false => rfl
  | true => exact absurd (h2.mp hv) (by decide)

/-- C7: `reset` returns true exactly when a record exists; afterwards no
record remains for the phone number, so every subsequent `verify` for it
returns false (including the previously valid code). -/
theorem C7_reset_deletes (s : VerificationStore) (phone : String) :
    ((reset s phone).2 = true ↔ ∃ r, lookupRecord s phone = some r) ∧
    lookupRecord (reset s phone).1 phone = none ∧
    ∀ msg now, verify (reset s phone).1 phone msg now = false := by
  refine ⟨?_, lookupRecord_reset_self s phone,
    fun msg now => verify_false_of_none _ _ _ _ (lookupRecord_reset_self s phone)⟩
  cases h : lookupRecord s phone <;> simp [reset, h]

theorem C7_reset_deletes_witness :
    (reset demoStore "+15551234567").2 = true ∧
    lookupRecord (reset demoStore "+15551234567").1 "+15551234567" = none ∧
    verify (reset demoStore "+15551234567").1 "+15551234567" "4821" 10 = false := by
  have h := C7_reset_deletes demoStore "+15551234567"
  exact ⟨h.1.mpr ⟨⟨"4821", 300⟩, by decide⟩, h.2.1, h.2.2 "4821" 10⟩

/-- C3: each POST handler, when a required body field is missing or the
supplied client secret differs from the configured one, responds with an
error status and a descriptive message and leaves the store exactly as
it was (no store operation runs). -/
theorem C3_reject_leaves_store_untouched (secret : String)
    (s : VerificationStore) (b : RequestBody) (code : String) (now ttl : Nat) :
    ((b.client_secret = none ∨ b.phone = none ∨ b.client_secret ≠ some secret) →
      (handleApiRequest secret s b code now ttl).1 = s ∧
      errorResponse (handleApiRequest secret s b code now ttl).2 = true) ∧
    ((b.client_secret = none ∨ b.phone = none ∨ b.sms_message = none ∨
        b.client_secret ≠ some secret) →
      (handleApiVerify secret s b now).1 = s ∧
      errorResponse (handleApiVerify secret s b now).2 = true) ∧
    ((b.client_secret = none ∨ b.phone = none ∨ b.client_secret ≠ some secret) →
      (handleApiReset secret s b).1 = s ∧
      errorResponse (handleApiReset secret s b).2 = true) := by
  refine ⟨fun h => ?_, fun h => ?_, fun h => ?_⟩
  · by_cases h1 : b.client_secret = none ∨ b.phone = none
    · simp [handleApiRequest, h1, errorResponse, requiredRequestMsg]
      decide
    · have h2 : b.client_secret ≠ some secret := by tauto
      simp [handleApiRequest, h1, h2, errorResponse, secretMismatchMsg]
      decide
  · by_cases h1 : b.client_secret = none ∨ b.phone = none ∨ b.sms_message = none
    · simp [handleApiVerify, h1, errorResponse, requiredVerifyMsg]
      decide
    · have h2 : b.client_secret ≠ some secret := by tauto
      simp [handleApiVerify, h1, h2, errorResponse, secretMismatchMsg]
      decide
  · by_cases h1 : b.client_secret = none ∨ b.phone = none
    · simp [handleApiReset, h1, errorResponse, requiredResetMsg]
      decide
    · have h2 : b.client_secret ≠ some secret := by tauto
      simp [handleApiReset, h1, h2, errorResponse, secretMismatchMsg]
      decide

theorem C3_reject_leaves_store_untouched_witness :
    ((handleApiRequest "sms-shared-secret" demoStore
        ⟨some "wrong", some "+15551234567", some "4821"⟩ "9999" 0 300).1 =
      demoStore ∧
      errorResponse (handleApiRequest "sms-shared-secret" demoStore
        ⟨some "wrong", some "+15551234567", some "4821"⟩ "9999" 0 300).2 = true) ∧
    ((handleApiVerify "sms-shared-secret" demoStore
        ⟨some "wrong", some "+15551234567", some "4821"⟩ 0).1 = demoStore ∧
      errorResponse (handleApiVerify "sms-shared-secret" demoStore
        ⟨some "wrong", some "+15551234567", some "4821"⟩ 0).2 = true) ∧
    ((handleApiReset "sms-shared-secret" demoStore
        ⟨some "wrong", some "+15551234567", some "4821"⟩).1 = demoStore ∧
      errorResponse (handleApiReset "sms-shared-secret" demoStore
        ⟨some "wrong", some "+15551234567", some "4821"⟩).2 = true) := by
  have h := C3_reject_leaves_store_untouched "sms-shared-secret" demoStore
    ⟨some "wrong", some "+15551234567", some "4821"⟩ "9999" 0 300
  exact ⟨h.1 (Or.inr (Or.inr (by decide))),
    h.2.1 (Or.inr (Or.inr (Or.inr (by decide)))),
    h.2.2 (Or.inr (Or.inr (by decide)))⟩

/-- C6: the verify handler never mutates the store — its output store is
its input store for every request body and outcome — so an immediately
repeated identical verify call produces the identical response (a
correct code is not consumed by a successful verification). -/
theorem C6_verify_never_mutates (secret : String) (s : VerificationStore)
    (b : RequestBody) (now : Nat) :
    (handleApiVerify secret s b now).1 = s ∧
    handleApiVerify secret (handleApiVerify secret s b now).1 b now =
      handleApiVerify secret s b now := by
  have h1 : (handleApiVerify secret s b now).1 = s := by
    unfold handleApiVerify
    repeat' split
    all_goals rfl
  exact ⟨h1, by rw [h1]⟩

/-- C8: once the body fields are present and the client secret matches,
a failed verification (wrong code, expired code, or unknown number) and
a failed reset are reported as a structured `success:false` JSON body
with the non-error HTTP status 200, not as an error response. -/
theorem C8_mismatch_is_structured_success (secret phone : String)
    (s : VerificationStore) (b : RequestBody) (now : Nat)
    (hcs : b.client_secret = some secret) (hp : b.phone = some phone) :
    (∀ msg, b.sms_message = some msg → verify s phone msg now = false →
      handleApiVerify secret s b now = (s, ⟨200, .failureMsg verifyFailMsg⟩) ∧
      errorResponse (handleApiVerify secret s b now).2 = false) ∧
    ((reset s phone).2 = false →
      handleApiReset secret s b = (s, ⟨200, .failureMsg resetFailMsg⟩) ∧
      errorResponse (handleApiReset secret s b).2 = false) := by
  constructor
  · intro msg hm hv
    simp [handleApiVerify, hcs, hp, hm, hv, errorResponse]
  · intro hr
    cases h : lookupRecord s phone with
    | none => simp [handleApiReset, hcs, hp, reset, h, errorResponse]
    | some r => simp [reset, h] at hr

theorem C8_mismatch_is_structured_success_witness :
    handleApiVerify "sms-shared-secret" []
      ⟨some "sms-shared-secret", some "+15551234567", some "0000"⟩ 5 =
      ([], ⟨200, .failureMsg verifyFailMsg⟩) ∧
    handleApiReset "sms-shared-secret" []
      ⟨some "sms-shared-secret", some "+15551234567", some "0000"⟩ =
      ([], ⟨200, .failureMsg resetFailMsg⟩) := by
  have h := C8_mismatch_is_structured_success "sms-shared-secret" "+15551234567"
    [] ⟨some "sms-shared-secret", some "+15551234567", some "0000"⟩ 5 rfl rfl
  exact ⟨(h.1 "0000" rfl (by decide)).1, (h.2 (by decide)).1⟩

/-- C9 counterexample: on a concrete populated environment, the
`GET /config` response returns the configured shared client secret and
the Twilio API key verbatim, so secret configuration values do appear
in the returned JSON. -/
theorem C9_counterexample_config_leaks_secrets :
    (configHandler demoEnv).CLIENT_SECRET = some "sms-shared-secret" ∧
    (configHandler demoEnv).TWILIO_API_KEY = some "SKxxxxxxxx" :=
  ⟨rfl, rfl⟩

/-- C9 (amended): the `GET /config` response masks only
`TWILIO_API_SECRET`, reducing it to the boolean `value != ''`; the
shared client secret, the Twilio API key, and the account SID are all
returned verbatim. -/
theorem C9_config_masks_only_api_secret (env : Env) :
    (configHandler env).CLIENT_SECRET = env.CLIENT_SECRET ∧
    (configHandler env).TWILIO_API_KEY = env.TWILIO_API_KEY ∧
    (configHandler env).TWILIO_ACCOUNT_SID = env.TWILIO_ACCOUNT_SID ∧
    ∀ sec, env.TWILIO_API_SECRET = some sec →
      ((configHandler env).TWILIO_API_SECRET = true ↔ sec ≠ "") := by
  refine ⟨rfl, rfl, rfl, fun sec hs => ?_⟩
  simp [configHandler, hs]

theorem C9_config_masks_only_api_secret_witness :
    (configHandler demoEnv).CLIENT_SECRET = demoEnv.CLIENT_SECRET ∧
    ((configHandler demoEnv).TWILIO_API_SECRET = true ↔
      "twilio-api-secret" ≠ "") := by
  have h := C9_config_masks_only_api_secret demoEnv
  exact ⟨h.1, h.2.2.2 "twilio-api-secret" rfl⟩

/-- C10 counterexample: with the client secret absent, startup prints
the remediation message but terminates through the bare
`process.exit()`, whose exit code is 0 — not a non-zero exit code as
the claim states. -/
theorem C10_counterexample_exit_code_zero :
    startup envMissingSecret = StartupOutcome.exited clientSecretMsg 0 := by
  decide

/-- C10 (amended): if any required configuration value is absent at
startup, the process prints a non-empty human-readable remediation
message and exits before serving any request — but with the default
exit code 0 of the argumentless `process.exit()`, not a non-zero
code. -/
theorem C10_missing_config_exits (env : Env)
    (h : env.TWILIO_API_KEY = none ∨ env.TWILIO_API_SECRET = none ∨
      env.TWILIO_ACCOUNT_SID = none ∨ env.SENDING_PHONE_NUMBER = none ∨
      env.APP_HASH = none ∨ env.CLIENT_SECRET = none) :
    (startup env).serving = false ∧
    ∃ msg, startup env = .exited msg 0 ∧ msg ≠ "" := by
  unfold startup
  by_cases h1 : env.TWILIO_API_KEY = none ∨ env.TWILIO_API_SECRET = none ∨
      env.TWILIO_ACCOUNT_SID = none
  · rw [if_pos h1]
    exact ⟨rfl, twilioCredsMsg, rfl, by decide⟩
  · rw [if_neg h1]
    by_cases h2 : env.SENDING_PHONE_NUMBER = none
    · rw [if_pos h2]
      exact ⟨rfl, sendingNumberMsg, rfl, by decide⟩
    · rw [if_neg h2]
      by_cases h3 : env.APP_HASH = none
      · rw [if_pos h3]
        exact ⟨rfl, appHashMsg, rfl, by decide⟩
      · rw [if_neg h3]
        by_cases h4 : env.CLIENT_SECRET = none
        · rw [if_pos h4]
          exact ⟨rfl, clientSecretMsg, rfl, by decide⟩
        · exact absurd h (by tauto)

theorem C10_missing_config_exits_witness :
    (startup envMissingSecret).serving = false ∧
    ∃ msg, startup envMissingSecret = .exited msg 0 ∧ msg ≠ "" :=
  C10_missing_config_exits envMissingSecret
    (Or.inr (Or.inr (Or.inr (Or.inr (Or.inr rfl)))))

end SMSApp
